import Mathlib

/-!
Shallow embedding of `scripts/fetch_data.py` (NBA 3-point shot data
collection script) and verification of its specification.

The script's pipeline is: validate a season string, enumerate active
players for the season, fetch each player's shot chart from the external
stats API (one player at a time with a fixed sleep between requests),
filter rows to three-point field-goal attempts, concatenate all players'
filtered rows in enumeration order, and write the aggregate to a parquet
file whose name is derived from the season string.

Modelling choices:
  - a pandas DataFrame of shot-chart rows is a `List ShotRecord`; a row
    keeps the two columns the script inspects (`SHOT_TYPE`,
    `PLAYER_NAME`) plus an opaque association list `rest` for all other
    columns;
  - the external API is an oracle `ShotApi` mapping a player id and a
    season to `Except String (List ShotRecord)`; an `Except.error`
    models any exception raised inside the request (network error,
    malformed response, API-side error);
  - the roster query (`get_player_list` / `CommonAllPlayers`) is an
    oracle `Except String (List Player)` passed to the pipeline, since
    its failure propagates uncaught;
  - observable side effects (network requests, `time.sleep`, the parquet
    write) are collected in an explicit `List Effect` trace;
  - `argparse` exiting with a usage error when the `type=` callable
    raises `ArgumentTypeError` is modelled by `main` returning
    `Outcome.usageError` with an empty effect trace;
  - Python regex semantics are kept: in `re.match(r'^\d{4}-\d{2}$', s)`
    the anchor `$` matches at the end of the string or just before one
    final newline, so the validator also accepts `'2024-25\n'` (and
    `int('25\n') = 25` because `int` ignores surrounding whitespace);
    Python's `\d` matches every Unicode decimal digit while this
    embedding uses ASCII `Char.isDigit`, so the embedding agrees with
    the source on exactly the ASCII strings, and every universal
    statement about the validator is scoped to ASCII inputs.
-/

namespace FetchData

/-- One shot-chart row.  `SHOT_TYPE` and `PLAYER_NAME` are the columns the
script reads or writes; every other column is kept opaque in `rest`. -/
structure ShotRecord where
  SHOT_TYPE : String
  PLAYER_NAME : String
  rest : List (String × String)
deriving Repr, DecidableEq

/-- One entry of the player list built by `get_player_list`. -/
structure Player where
  player_id : Nat
  player_name : String
deriving Repr, DecidableEq

/-- The external shot-chart endpoint (`shotchartdetail.ShotChartDetail`):
given a player id and a season it either returns the rows of the first
data frame or raises (modelled as `Except.error`). -/
abbrev ShotApi := Nat → String → Except String (List ShotRecord)

/-- Observable side effects of one pipeline run. -/
inductive Effect where
  /-- the roster request issued by `get_player_list` -/
  | rosterCall : Effect
  /-- the shot-chart request issued by `get_player_shots` for one player -/
  | apiCall : Nat → Effect
  /-- `time.sleep(seconds)` -/
  | sleep : ℚ → Effect
  /-- `save_to_parquet` writing the aggregate to `path` -/
  | writeFile : String → Effect
deriving Repr, DecidableEq

/-- The hyphen character of the season pattern. -/
def hyphenChar : Char := '-'

/-- The underscore substituted into the output filename. -/
def underscoreChar : Char := '_'

/-- The newline character Python's `$` anchor tolerates at the end. -/
def newlineChar : Char := '\n'

/-- Numeric value of a digit character, as Python `int` sees it. -/
def digitVal (c : Char) : Nat := c.toNat - ('0').toNat

/-- Lines 205–216 of the source, reached when the regex matched:
`years = season.split('-')` (a matched season holds exactly one hyphen,
at position 4, so the parts are the four leading digit characters and
the two digit characters after the hyphen), `start_year = int(years[0])`,
`end_year_short = int(years[1])` — `int` ignores the trailing newline
when one is present — `expected_end = start_year % 100 + 1`, and the
season is rejected when `end_year_short != expected_end`, else returned
unchanged (newline included, when present). -/
def consecutiveYearsCheck (a b c d e f : Char) (season : String) :
    Except String String :=
  let start_year := digitVal a * 1000 + digitVal b * 100 + digitVal c * 10 + digitVal d
  let end_year_short := digitVal e * 10 + digitVal f
  let expected_end := start_year % 100 + 1
  if end_year_short != expected_end then
    Except.error ("Invalid season: years must be consecutive")
  else
    Except.ok season

/-- `validate_season_format(season)`: `re.match(r'^\d{4}-\d{2}$', season)`
succeeds on `four digits, hyphen, two digits`, and ALSO when one final
newline follows, because Python's `$` matches just before a single
trailing newline.  Both shapes are embedded; a failed match raises
`argparse.ArgumentTypeError` (`Except.error`); a successful match runs the
consecutive-years check.  Digits are ASCII `Char.isDigit` here: Python's
`\d` additionally matches non-ASCII Unicode decimal digits (which `int`
also parses), so this embedding agrees with the source on exactly the
ASCII strings, and the theorems below quantify over ASCII inputs. -/
def validate_season_format (season : String) : Except String String :=
  match season.data with
  | [a, b, c, d, h, e, f] =>
    if a.isDigit && b.isDigit && c.isDigit && d.isDigit
        && (h == hyphenChar) && e.isDigit && f.isDigit then
      consecutiveYearsCheck a b c d e f season
    else
      Except.error ("Invalid season format")
  | [a, b, c, d, h, e, f, n] =>
    if a.isDigit && b.isDigit && c.isDigit && d.isDigit
        && (h == hyphenChar) && e.isDigit && f.isDigit
        && (n == newlineChar) then
      consecutiveYearsCheck a b c d e f season
    else
      Except.error ("Invalid season format")
  | _ => Except.error ("Invalid season format")

/-- Spec-side predicate, following the spec's words: the string matches
the pattern `four digits, hyphen, two digits`. -/
def specSeasonPattern (s : String) : Bool :=
  match s.data with
  | [a, b, c, d, h, e, f] =>
    a.isDigit && b.isDigit && c.isDigit && d.isDigit
      && (h == hyphenChar) && e.isDigit && f.isDigit
  | _ => false

/-- Spec-side value of the four-digit prefix of a pattern-matching
season string. -/
def specPrefixVal (s : String) : Nat :=
  match s.data with
  | a :: b :: c :: d :: _ =>
    digitVal a * 1000 + digitVal b * 100 + digitVal c * 10 + digitVal d
  | _ => 0

/-- Spec-side value of the two-digit suffix of a pattern-matching season
string (also when one trailing newline follows: `int` ignores it). -/
def specSuffixVal (s : String) : Nat :=
  match s.data with
  | [_, _, _, _, _, e, f] => digitVal e * 10 + digitVal f
  | [_, _, _, _, _, e, f, _] => digitVal e * 10 + digitVal f
  | _ => 0

/-- The set of ASCII strings Python's `re.match(r'^\d{4}-\d{2}$', ·)`
accepts: the claim's pattern, or the claim's pattern followed by one
final newline (`$` matches just before a single trailing newline). -/
def relaxedSeasonPattern (s : String) : Bool :=
  match s.data with
  | [a, b, c, d, h, e, f] =>
    a.isDigit && b.isDigit && c.isDigit && d.isDigit
      && (h == hyphenChar) && e.isDigit && f.isDigit
  | [a, b, c, d, h, e, f, n] =>
    a.isDigit && b.isDigit && c.isDigit && d.isDigit
      && (h == hyphenChar) && e.isDigit && f.isDigit
      && (n == newlineChar)
  | _ => false

/-- The string consists of ASCII characters only.  On ASCII strings the
embedded validator coincides with the Python function; outside ASCII,
Python's `\d` and `int()` also handle Unicode decimal digits, which this
embedding does not model, so universal statements are scoped by this
predicate. -/
def asciiOnly (s : String) : Bool :=
  s.data.all (fun c => c.toNat < 128)

/-- The exact shot-type marker the filter compares against:
`'3PT Field Goal'`. -/
def threePointMarker : String := "3PT Field Goal"

/-- The filter step `shots_df[shots_df['SHOT_TYPE'] == '3PT Field Goal']`:
keep exactly the rows whose `SHOT_TYPE` equals the marker. -/
def threePointFilter (shots_df : List ShotRecord) : List ShotRecord :=
  shots_df.filter (fun r => r.SHOT_TYPE == threePointMarker)

/-- `get_player_shots(player_id, player_name, season)`: request the shot
chart; on success, if the frame is non-empty, assign the supplied
`player_name` to the `PLAYER_NAME` column of every row
(`shots_df['PLAYER_NAME'] = player_name`) and return the frame; on any
exception, log a warning and return an empty frame. -/
def get_player_shots (api : ShotApi) (player_id : Nat) (player_name : String)
    (season : String) : List ShotRecord :=
  match api player_id season with
  | Except.ok shots_df =>
    if shots_df.isEmpty then shots_df
    else shots_df.map (fun r => { r with PLAYER_NAME := player_name })
  | Except.error _ => []

/-- One iteration of the fetch loop in `fetch_three_point_data`: fetch the
player's shots, filter to three-point attempts, append the filtered frame
to the accumulator only when it is non-empty, then sleep.  Returns the
lists appended by this iteration (zero or one) and the iteration's effect
trace: the shot-chart request followed by `time.sleep(rate_limit_seconds)`. -/
def fetchStep (api : ShotApi) (season : String) (rate_limit_seconds : ℚ)
    (player : Player) : List (List ShotRecord) × List Effect :=
  let shots_df := get_player_shots api player.player_id player.player_name season
  let appended :=
    if shots_df.isEmpty then []
    else
      let three_pointers := threePointFilter shots_df
      if three_pointers.isEmpty then [] else [three_pointers]
  (appended, [Effect.apiCall player.player_id, Effect.sleep rate_limit_seconds])

/-- Default of the `rate_limit_seconds` parameter: 0.6 seconds. -/
def default_rate_limit : ℚ := 6 / 10

/-- `fetch_three_point_data(season, rate_limit_seconds)`.  Step 1
(`get_player_list`) is the `roster` oracle argument: its failure
propagates uncaught (`Except.error`), after the roster request has been
issued.  Step 2 runs `fetchStep` over the player list in order,
accumulating `all_three_pointers`.  Step 3 concatenates the accumulated
frames (`pd.concat`), or yields the empty frame when nothing was
accumulated.  The second component is the run's effect trace. -/
def fetch_three_point_data (roster : Except String (List Player)) (api : ShotApi)
    (season : String) (rate_limit_seconds : ℚ) :
    Except String (List ShotRecord) × List Effect :=
  match roster with
  | Except.error msg => (Except.error msg, [Effect.rosterCall])
  | Except.ok player_list =>
    let results := player_list.map (fetchStep api season rate_limit_seconds)
    let all_three_pointers := (results.map Prod.fst).flatten
    (Except.ok all_three_pointers.flatten,
      Effect.rosterCall :: (results.map Prod.snd).flatten)

/-- Python `season.replace(hyphen, underscore)` at the character level:
replace every occurrence of the single character. -/
def replaceAllChar (old new : Char) : List Char → List Char
  | [] => []
  | c :: cs => (if c == old then new else c) :: replaceAllChar old new cs

/-- `season.replace('-', '_')` as computed in `main`. -/
def seasonFilename (season : String) : String :=
  String.mk (replaceAllChar hyphenChar underscoreChar season.data)

/-- The output path derived in `main`, relative to the project root
(`Path(__file__).parent.parent`):
`data/raw/nba_3pt_<season_with_underscore>.parquet`. -/
def output_path_for (season : String) : String :=
  "data/raw/nba_3pt_" ++ seasonFilename season ++ ".parquet"

/-- The default of the `--season` flag. -/
def DEFAULT_SEASON : String := "2024-25"

/-- `parse_arguments()`: `argparse` applies the `type=` callable
`validate_season_format` to the supplied `--season` value, or to the
string default `'2024-25'` when the flag is absent; an
`ArgumentTypeError` becomes a usage error (`Except.error`). -/
def parse_arguments (season_arg : Option String) : Except String String :=
  validate_season_format (season_arg.getD DEFAULT_SEASON)

/-- Terminal outcome of one run of `main`. -/
inductive Outcome where
  /-- `argparse` exited with a usage error before doing anything else -/
  | usageError : String → Outcome
  /-- an uncaught exception (roster enumeration failure) aborted the run -/
  | fatal : String → Outcome
  /-- the aggregate was written to `path` with `count` rows -/
  | wrote : String → Nat → Outcome
  /-- empty aggregate: `'No data to save.'`, nothing written -/
  | noData : Outcome
deriving Repr, DecidableEq

/-- `main()`: parse arguments (exiting on a usage error before any I/O),
derive the output path from the season, fetch the data, and either save
the aggregate to parquet and report the count, or report that there is no
data to save when the aggregate is empty. -/
def main (season_arg : Option String) (roster : Except String (List Player))
    (api : ShotApi) : Outcome × List Effect :=
  match parse_arguments season_arg with
  | Except.error msg => (Outcome.usageError msg, [])
  | Except.ok season =>
    let output_path := output_path_for season
    match fetch_three_point_data roster api season default_rate_limit with
    | (Except.error msg, effects) => (Outcome.fatal msg, effects)
    | (Except.ok three_point_df, effects) =>
      if three_point_df.isEmpty then
        (Outcome.noData, effects)
      else
        (Outcome.wrote output_path three_point_df.length,
          effects ++ [Effect.writeFile output_path])

/-- Recognizer for sleep effects, used to count them in a trace. -/
def isSleepEffect : Effect → Bool
  | Effect.sleep _ => true
  | _ => false

/-! ### Concrete sample inputs, used by witnesses and counterexamples -/

/-- A sample three-point row as the API returns it. -/
def sample3PT : ShotRecord := ShotRecord.mk threePointMarker ("API Name") []

/-- A sample two-point row as the API returns it. -/
def sample2PT : ShotRecord := ShotRecord.mk ("2PT Field Goal") ("API Name") []

/-- A sample player with id 1.  Its display name coincides with
`playerTwo`'s, which is legitimate: two distinct players may share a
display name. -/
def playerOne : Player := Player.mk 1 ("Jo")

/-- A sample player with id 2, sharing `playerOne`'s display name. -/
def playerTwo : Player := Player.mk 2 ("Jo")

/-- A sample player whose fetch fails under `sampleApi`. -/
def playerNine : Player := Player.mk 9 ("Zed")

/-- A sample season string. -/
def sampleSeason : String := "2023-24"

/-- Sample oracle: player 9's request raises, player 1 yields one
three-point row, every other player yields that row twice. -/
def sampleApi : ShotApi := fun pid _ =>
  if pid = 9 then Except.error ("timeout")
  else if pid = 1 then Except.ok [sample3PT]
  else Except.ok [sample3PT, sample3PT]

/-- Sample oracle on which every request yields an empty frame. -/
def emptyApi : ShotApi := fun _ _ => Except.ok []

/-! ## Helper lemmas -/

/-- The rows one loop iteration contributes to the aggregate are exactly
the player's filtered rows: skipping the append for empty frames changes
nothing, because an empty filtered frame contributes no rows anyway. -/
theorem fetchStep_rows (api : ShotApi) (season : String) (rate : ℚ) (p : Player) :
    (fetchStep api season rate p).1.flatten
      = threePointFilter (get_player_shots api p.player_id p.player_name season) := by
  unfold fetchStep
  by_cases hs : (get_player_shots api p.player_id p.player_name season).isEmpty
  · rw [List.isEmpty_iff] at hs
    simp [hs, threePointFilter]
  · simp only [hs, Bool.false_eq_true, if_false]
    by_cases ht : (threePointFilter (get_player_shots api p.player_id p.player_name season)).isEmpty
    · rw [List.isEmpty_iff] at ht
      simp [ht]
    · simp [ht]

/-- The effect trace of one loop iteration: the shot-chart request, then
the sleep — unconditionally. -/
theorem fetchStep_effects (api : ShotApi) (season : String) (rate : ℚ) (p : Player) :
    (fetchStep api season rate p).2
      = [Effect.apiCall p.player_id, Effect.sleep rate] := rfl

/-- Row characterization of `fetch_three_point_data` on a successful
roster: the aggregate is the concatenation, in player-enumeration order,
of each player's filtered rows. -/
theorem fetch_rows_eq (api : ShotApi) (season : String) (rate : ℚ)
    (ps : List Player) :
    (fetch_three_point_data (Except.ok ps) api season rate).1
      = Except.ok ((ps.map (fun p =>
          threePointFilter (get_player_shots api p.player_id p.player_name season))).flatten) := by
  unfold fetch_three_point_data
  induction ps with
  | nil => rfl
  | cons p ps ih =>
    simp only [List.map_cons, List.flatten_cons, List.flatten_append] at *
    rw [fetchStep_rows]
    simp only [Except.ok.injEq] at ih ⊢
    rw [ih]

/-- Effect-trace characterization of `fetch_three_point_data` on a
successful roster: the roster request, then, for each player in order,
that player's request followed by a sleep of `rate_limit_seconds`. -/
theorem fetch_effects_eq (api : ShotApi) (season : String) (rate : ℚ)
    (ps : List Player) :
    (fetch_three_point_data (Except.ok ps) api season rate).2
      = Effect.rosterCall
          :: (ps.map (fun p => [Effect.apiCall p.player_id, Effect.sleep rate])).flatten := by
  unfold fetch_three_point_data
  simp [List.map_map]
  rfl

/-- No write effect ever appears in the fetch phase's trace. -/
theorem writeFile_not_in_fetch_effects (roster : Except String (List Player))
    (api : ShotApi) (season : String) (rate : ℚ) (path : String) :
    Effect.writeFile path ∉ (fetch_three_point_data roster api season rate).2 := by
  match roster with
  | Except.error msg => simp [fetch_three_point_data]
  | Except.ok ps =>
    rw [fetch_effects_eq]
    intro hmem
    rcases List.mem_cons.mp hmem with h | h
    · exact Effect.noConfusion h
    · rcases List.mem_flatten.mp h with ⟨l, hl, hmem2⟩
      rcases List.mem_map.mp hl with ⟨p, _, rfl⟩
      rcases List.mem_cons.mp hmem2 with h2 | h2
      · exact Effect.noConfusion h2
      · rcases List.mem_cons.mp h2 with h3 | h3
        · exact Effect.noConfusion h3
        · exact (List.not_mem_nil _) h3

/-! ## Theorems -/

/-- Claim C1, counterexample to the claim as stated: `'2024-25\n'` does
NOT match the pattern `four digits, hyphen, two digits`, yet the code
accepts it and returns it unchanged — `re.match(r'^\d{4}-\d{2}$', ...)`
matches because `$` also matches just before one final newline, and
`int('25\n') = 25` — so "every string not matching the pattern is
rejected" fails. -/
theorem validate_season_format_newline_counterexample :
    specSeasonPattern ("2024-25\n") = false ∧
    validate_season_format ("2024-25\n") = Except.ok ("2024-25\n") := by
  exact ⟨rfl, rfl⟩

/-- Claim C1 (amended): for every string matching the pattern `four
digits, hyphen, two digits` — or that pattern followed by one trailing
newline, which Python's `$` anchor also lets through (`relaxedSeasonPattern`)
— the validator accepts, returning the string unchanged, iff the value of
the two-digit suffix equals `(four-digit prefix mod 100) + 1`; strings
matching the claim's pattern are in particular covered; every other ASCII
string is rejected with an error.  (Non-ASCII strings of Unicode digits,
which Python's `\d` also matches, are outside this statement's scope.) -/
theorem validate_season_format_accepts_iff_consecutive (s : String) :
    (relaxedSeasonPattern s = true →
      (validate_season_format s = Except.ok s ↔
        specSuffixVal s = specPrefixVal s % 100 + 1)) ∧
    (specSeasonPattern s = true → relaxedSeasonPattern s = true) ∧
    (asciiOnly s = true → relaxedSeasonPattern s = false →
      ∃ msg, validate_season_format s = Except.error msg) := by
  refine ⟨?_, ?_, ?_⟩
  · intro hpat
    unfold relaxedSeasonPattern at hpat
    unfold validate_season_format consecutiveYearsCheck specPrefixVal specSuffixVal
    split at hpat
    next a b c d h e f heq =>
      rw [heq]
      rw [if_pos hpat]
      by_cases hv : digitVal e * 10 + digitVal f
          = (digitVal a * 1000 + digitVal b * 100 + digitVal c * 10 + digitVal d) % 100 + 1
      · simp [hv]
      · simp [hv, bne_iff_ne]
    next a b c d h e f n heq =>
      rw [heq]
      rw [if_pos hpat]
      by_cases hv : digitVal e * 10 + digitVal f
          = (digitVal a * 1000 + digitVal b * 100 + digitVal c * 10 + digitVal d) % 100 + 1
      · simp [hv]
      · simp [hv, bne_iff_ne]
    next => exact absurd hpat (by simp)
  · intro hspec
    unfold specSeasonPattern at hspec
    unfold relaxedSeasonPattern
    split at hspec
    next a b c d h e f heq =>
      rw [heq]
      exact hspec
    next => exact absurd hspec (by simp)
  · intro _ hpat
    unfold relaxedSeasonPattern at hpat
    unfold validate_season_format
    split at hpat
    next a b c d h e f heq =>
      rw [if_neg]
      · exact ⟨_, rfl⟩
      · simp [hpat]
    next a b c d h e f n heq =>
      rw [if_neg]
      · exact ⟨_, rfl⟩
      · simp [hpat]
    next => exact ⟨_, rfl⟩

/-- Claim C1, witness: the characterization at concrete inputs — the
validator accepts `'2024-25'` and `'2024-25\n'`, and rejects the
non-matching ASCII string `'abcd-ef'`. -/
theorem validate_season_format_accepts_iff_consecutive_witness :
    validate_season_format ("2024-25") = Except.ok ("2024-25") ∧
    validate_season_format ("2024-25\n") = Except.ok ("2024-25\n") ∧
    (∃ msg, validate_season_format ("abcd-ef") = Except.error msg) :=
  ⟨((validate_season_format_accepts_iff_consecutive ("2024-25")).1
      (by decide)).mpr (by decide),
    ((validate_season_format_accepts_iff_consecutive ("2024-25\n")).1
      (by decide)).mpr (by decide),
    (validate_season_format_accepts_iff_consecutive ("abcd-ef")).2.2
      (by decide) (by decide)⟩

/-- Claim C3: when the API request for one player fails for any reason,
`get_player_shots` returns an empty frame instead of propagating the
failure, and the aggregate equals what the remaining players contribute:
the failed player contributes zero rows. -/
theorem get_player_shots_failure_isolated (api : ShotApi) (season : String)
    (rate : ℚ) (ps1 ps2 : List Player) (p : Player) (e : String)
    (hfail : api p.player_id season = Except.error e) :
    get_player_shots api p.player_id p.player_name season = [] ∧
    (fetch_three_point_data (Except.ok (ps1 ++ p :: ps2)) api season rate).1
      = (fetch_three_point_data (Except.ok (ps1 ++ ps2)) api season rate).1 := by
  have hempty : get_player_shots api p.player_id p.player_name season = [] := by
    unfold get_player_shots
    rw [hfail]
  refine ⟨hempty, ?_⟩
  rw [fetch_rows_eq, fetch_rows_eq]
  simp [hempty, threePointFilter]

/-- Claim C3, witness: under `sampleApi`, player 9's request raises, the
fetcher returns an empty frame for it, and the aggregate over
`[playerOne, playerNine]` equals the aggregate over `[playerOne]` alone. -/
theorem get_player_shots_failure_isolated_witness :
    get_player_shots sampleApi playerNine.player_id playerNine.player_name sampleSeason = [] ∧
    (fetch_three_point_data (Except.ok [playerOne, playerNine]) sampleApi
        sampleSeason default_rate_limit).1
      = (fetch_three_point_data (Except.ok [playerOne]) sampleApi
          sampleSeason default_rate_limit).1 :=
  get_player_shots_failure_isolated sampleApi sampleSeason default_rate_limit
    [playerOne] [] playerNine ("timeout") rfl

/-- Claim C4: the filter retains a record iff its `SHOT_TYPE` equals the
string `'3PT Field Goal'` exactly; case variants and other shot types
(e.g. `'2PT Field Goal'`) are excluded. -/
theorem threePointFilter_exact_match (df : List ShotRecord) (r : ShotRecord) :
    (r ∈ threePointFilter df ↔ r ∈ df ∧ r.SHOT_TYPE = threePointMarker) ∧
    (r.SHOT_TYPE = ("2PT Field Goal") → r ∉ threePointFilter df) ∧
    (r.SHOT_TYPE = ("3pt field goal") → r ∉ threePointFilter df) := by
  have hiff : r ∈ threePointFilter df ↔ r ∈ df ∧ r.SHOT_TYPE = threePointMarker := by
    unfold threePointFilter
    rw [List.mem_filter]
    simp only [beq_iff_eq]
  refine ⟨hiff, ?_, ?_⟩ <;>
    · intro h2 hmem
      have hmark := (hiff.mp hmem).2
      rw [h2] at hmark
      exact absurd hmark (by decide)

/-- Claim C4, witness: on the concrete frame `[sample3PT, sample2PT]` the
filter keeps the three-point row and drops the two-point row. -/
theorem threePointFilter_exact_match_witness :
    sample3PT ∈ threePointFilter [sample3PT, sample2PT] ∧
    sample2PT ∉ threePointFilter [sample3PT, sample2PT] :=
  ⟨(threePointFilter_exact_match [sample3PT, sample2PT] sample3PT).1.mpr
      ⟨by decide, by decide⟩,
    (threePointFilter_exact_match [sample3PT, sample2PT] sample2PT).2.1 (by decide)⟩

/-- Claim C5 (amended): the aggregate's row order equals the
concatenation of the filtered per-player row sequences in
player-enumeration order, keeping within-player order; for two players
the aggregate is first player's filtered rows, then second player's. -/
theorem fetch_aggregate_row_order (api : ShotApi) (season : String) (rate : ℚ)
    (player_list : List Player) (p1 p2 : Player) :
    ((fetch_three_point_data (Except.ok player_list) api season rate).1
      = Except.ok ((player_list.map (fun p =>
          threePointFilter (get_player_shots api p.player_id p.player_name season))).flatten)) ∧
    ((fetch_three_point_data (Except.ok [p1, p2]) api season rate).1
      = Except.ok
          (threePointFilter (get_player_shots api p1.player_id p1.player_name season)
            ++ threePointFilter (get_player_shots api p2.player_id p2.player_name season))) := by
  refine ⟨fetch_rows_eq api season rate player_list, ?_⟩
  rw [fetch_rows_eq]
  simp

/-- Claim C5, counterexample to the claim as stated: `playerOne` and
`playerTwo` share a display name; under `sampleApi` their filtered
results are `[r]` and `[r, r]` for the same row `r` — the filtered
results differ, yet concatenating them in reverse enumeration order
still equals the aggregate, so differing filtered results do not imply
that the reverse-order concatenation differs from the aggregate. -/
theorem fetch_reverse_concat_counterexample :
    (threePointFilter (get_player_shots sampleApi playerOne.player_id
        playerOne.player_name sampleSeason)
      ≠ threePointFilter (get_player_shots sampleApi playerTwo.player_id
          playerTwo.player_name sampleSeason)) ∧
    ((fetch_three_point_data (Except.ok [playerOne, playerTwo]) sampleApi
        sampleSeason default_rate_limit).1
      = Except.ok
          (threePointFilter (get_player_shots sampleApi playerTwo.player_id
              playerTwo.player_name sampleSeason)
            ++ threePointFilter (get_player_shots sampleApi playerOne.player_id
                playerOne.player_name sampleSeason))) :=
  ⟨by decide, rfl⟩

/-- Claim C8: in the fetch phase the trace is, for each enumerated player
in order, the player's request followed by `sleep rate_limit_seconds` —
also after failed and zero-row fetches — so the number of sleeps equals
the number of enumerated players; the default delay is 0.6 seconds. -/
theorem sleep_after_every_player (api : ShotApi) (season : String) (rate : ℚ)
    (player_list : List Player) :
    ((fetch_three_point_data (Except.ok player_list) api season rate).2
      = Effect.rosterCall
          :: (player_list.map (fun p =>
              [Effect.apiCall p.player_id, Effect.sleep rate])).flatten) ∧
    (((fetch_three_point_data (Except.ok player_list) api season rate).2.filter
        isSleepEffect).length = player_list.length) ∧
    default_rate_limit = 6 / 10 := by
  refine ⟨fetch_effects_eq api season rate player_list, ?_, rfl⟩
  rw [fetch_effects_eq]
  induction player_list with
  | nil => rfl
  | cons p ps ih =>
    simp only [List.map_cons, List.flatten_cons, List.filter_cons] at *
    simp only [isSleepEffect] at *
    simp only [List.filter_append, List.length_append] at *
    simp_all [List.filter_cons, isSleepEffect, List.length_cons]

/-- Claim C10: every row returned by `get_player_shots` carries the
supplied player name (assigned uniformly, overwriting whatever the API
returned), and hence every aggregate row carries the display name of the
player under whose enumeration entry it was fetched. -/
theorem player_name_uniform (api : ShotApi) (season : String) (rate : ℚ)
    (player_list : List Player) :
    (∀ (pid : Nat) (name : String) (r : ShotRecord),
        r ∈ get_player_shots api pid name season → r.PLAYER_NAME = name) ∧
    (∀ (rows : List ShotRecord) (r : ShotRecord),
        (fetch_three_point_data (Except.ok player_list) api season rate).1
          = Except.ok rows →
        r ∈ rows → ∃ p, p ∈ player_list ∧ r.PLAYER_NAME = p.player_name) := by
  have h1 : ∀ (pid : Nat) (name : String) (r : ShotRecord),
      r ∈ get_player_shots api pid name season → r.PLAYER_NAME = name := by
    intro pid name r hmem
    unfold get_player_shots at hmem
    match hapi : api pid season with
    | Except.error msg =>
      rw [hapi] at hmem
      simp at hmem
    | Except.ok shots_df =>
      rw [hapi] at hmem
      dsimp only at hmem
      by_cases hs : shots_df.isEmpty
      · rw [List.isEmpty_iff] at hs
        rw [if_pos] at hmem
        · rw [hs] at hmem
          simp at hmem
        · rw [hs]
          rfl
      · rw [if_neg hs] at hmem
        rcases List.mem_map.mp hmem with ⟨x, _, rfl⟩
        rfl
  refine ⟨h1, ?_⟩
  intro rows r hrows hmem
  rw [fetch_rows_eq] at hrows
  rw [Except.ok.injEq] at hrows
  rw [← hrows] at hmem
  rcases List.mem_flatten.mp hmem with ⟨l, hl, hr⟩
  rcases List.mem_map.mp hl with ⟨p, hp, rfl⟩
  refine ⟨p, hp, ?_⟩
  unfold threePointFilter at hr
  exact h1 p.player_id p.player_name r (List.mem_of_mem_filter hr)

/-- Claim C10, witness: under `sampleApi`, the row fetched for player 1
with supplied name `'Jo'` carries `PLAYER_NAME = 'Jo'` (the API-returned
name was `'API Name'`), and an aggregate row over `[playerOne]` carries
an enumerated player's display name. -/
theorem player_name_uniform_witness :
    (ShotRecord.mk threePointMarker ("Jo") []).PLAYER_NAME = ("Jo") ∧
    (∃ p, p ∈ [playerOne] ∧
      (ShotRecord.mk threePointMarker ("Jo") []).PLAYER_NAME = p.player_name) :=
  ⟨(player_name_uniform sampleApi sampleSeason default_rate_limit [playerOne]).1
      1 ("Jo") (ShotRecord.mk threePointMarker ("Jo") []) (by decide),
    (player_name_uniform sampleApi sampleSeason default_rate_limit [playerOne]).2
      [ShotRecord.mk threePointMarker ("Jo") []]
      (ShotRecord.mk threePointMarker ("Jo") []) rfl (by decide)⟩

/-- Claim C2: the code REJECTS the wrap-around season `'2099-00'`, because
`expected_end = 2099 % 100 + 1 = 100` and `int('00') = 0 ≠ 100` — whereas
the specification says `'2099-00'` is accepted.  The modulo arithmetic
never wraps `...99` seasons to `00`, although those are consecutive years,
which the validator's own rule claims to accept. -/
theorem validate_season_format_rejects_wraparound :
    ∃ msg, validate_season_format ("2099-00") = Except.error msg :=
  ⟨_, rfl⟩

/-- Claim C6: when the aggregated table is empty, `main` reports the
informational no-data outcome and never emits a write effect: the Writer
is not invoked and no output file is written. -/
theorem empty_aggregate_skips_writer (season_arg : Option String)
    (season : String) (roster : Except String (List Player)) (api : ShotApi)
    (hparse : parse_arguments season_arg = Except.ok season)
    (hempty : (fetch_three_point_data roster api season default_rate_limit).1
      = Except.ok []) :
    (main season_arg roster api).1 = Outcome.noData ∧
    ∀ path, Effect.writeFile path ∉ (main season_arg roster api).2 := by
  have hnw : ∀ path,
      Effect.writeFile path ∉ (fetch_three_point_data roster api season default_rate_limit).2 :=
    fun path => writeFile_not_in_fetch_effects roster api season default_rate_limit path
  unfold main
  rw [hparse]
  dsimp only
  rcases hfetch : fetch_three_point_data roster api season default_rate_limit with ⟨res, effs⟩
  rw [hfetch] at hempty
  simp only [hfetch] at hnw
  dsimp only at hempty hnw
  subst hempty
  dsimp only
  exact ⟨rfl, hnw⟩

/-- Claim C6, witness: with one enumerated player and an oracle returning
empty frames, the run ends in `noData` and the trace holds no write. -/
theorem empty_aggregate_skips_writer_witness :
    (main none (Except.ok [playerOne]) emptyApi).1 = Outcome.noData ∧
    ∀ path, Effect.writeFile path ∉ (main none (Except.ok [playerOne]) emptyApi).2 :=
  empty_aggregate_skips_writer none ("2024-25") (Except.ok [playerOne]) emptyApi
    rfl rfl

/-- A digit character is never the hyphen. -/
theorem digit_beq_hyphen_false (c : Char) (h : c.isDigit = true) :
    (c == hyphenChar) = false := by
  by_contra hne
  rw [Bool.not_eq_false, beq_iff_eq] at hne
  subst hne
  exact absurd h (by decide)

/-- The newline character is not the hyphen. -/
theorem newline_beq_hyphen_false : (newlineChar == hyphenChar) = false := by
  decide

/-- Claim C7: for every season string the validator accepts — the seven
character shape, or the same with the trailing newline the validator also
lets through — the output path is obtained by replacing the season's
hyphen with an underscore and embedding the result in the fixed template
`data/raw/nba_3pt_<season_with_underscore>.parquet` (relative to the
project root, `Path(__file__).parent.parent`). -/
theorem output_path_from_season (s : String)
    (hvalid : validate_season_format s = Except.ok s) :
    (∃ a b c d e f : Char,
      (s.data = [a, b, c, d, hyphenChar, e, f] ∧
        (seasonFilename s).data = [a, b, c, d, underscoreChar, e, f]) ∨
      (s.data = [a, b, c, d, hyphenChar, e, f, newlineChar] ∧
        (seasonFilename s).data = [a, b, c, d, underscoreChar, e, f, newlineChar])) ∧
    output_path_for s = "data/raw/nba_3pt_" ++ seasonFilename s ++ ".parquet" := by
  refine ⟨?_, rfl⟩
  unfold validate_season_format at hvalid
  split at hvalid
  next a b c d h e f heq =>
    by_cases hcond : (a.isDigit && b.isDigit && c.isDigit && d.isDigit
        && (h == hyphenChar) && e.isDigit && f.isDigit) = true
    · have hparts := hcond
      simp only [Bool.and_eq_true] at hparts
      obtain ⟨⟨⟨⟨⟨⟨ha, hb⟩, hc⟩, hd⟩, hh⟩, he⟩, hf⟩ := hparts
      rw [beq_iff_eq] at hh
      subst hh
      refine ⟨a, b, c, d, e, f, Or.inl ⟨heq, ?_⟩⟩
      unfold seasonFilename
      rw [heq]
      simp [replaceAllChar, digit_beq_hyphen_false a ha,
        digit_beq_hyphen_false b hb, digit_beq_hyphen_false c hc,
        digit_beq_hyphen_false d hd, digit_beq_hyphen_false e he,
        digit_beq_hyphen_false f hf]
    · rw [if_neg hcond] at hvalid
      exact absurd hvalid (by simp)
  next a b c d h e f n heq =>
    by_cases hcond : (a.isDigit && b.isDigit && c.isDigit && d.isDigit
        && (h == hyphenChar) && e.isDigit && f.isDigit
        && (n == newlineChar)) = true
    · have hparts := hcond
      simp only [Bool.and_eq_true] at hparts
      obtain ⟨⟨⟨⟨⟨⟨⟨ha, hb⟩, hc⟩, hd⟩, hh⟩, he⟩, hf⟩, hn⟩ := hparts
      rw [beq_iff_eq] at hh hn
      subst hh
      subst hn
      refine ⟨a, b, c, d, e, f, Or.inr ⟨heq, ?_⟩⟩
      unfold seasonFilename
      rw [heq]
      simp [replaceAllChar, newline_beq_hyphen_false,
        digit_beq_hyphen_false a ha, digit_beq_hyphen_false b hb,
        digit_beq_hyphen_false c hc, digit_beq_hyphen_false d hd,
        digit_beq_hyphen_false e he, digit_beq_hyphen_false f hf]
    · rw [if_neg hcond] at hvalid
      exact absurd hvalid (by simp)
  next =>
    exact absurd hvalid (by simp)

/-- Claim C7, witness: season `'2024-25'` yields the output path
`data/raw/nba_3pt_2024_25.parquet`. -/
theorem output_path_from_season_witness :
    ((∃ a b c d e f : Char,
      (("2024-25").data = [a, b, c, d, hyphenChar, e, f] ∧
        (seasonFilename ("2024-25")).data = [a, b, c, d, underscoreChar, e, f]) ∨
      (("2024-25").data = [a, b, c, d, hyphenChar, e, f, newlineChar] ∧
        (seasonFilename ("2024-25")).data
          = [a, b, c, d, underscoreChar, e, f, newlineChar])) ∧
    output_path_for ("2024-25")
      = "data/raw/nba_3pt_" ++ seasonFilename ("2024-25") ++ ".parquet") ∧
    output_path_for ("2024-25") = ("data/raw/nba_3pt_2024_25.parquet") :=
  ⟨output_path_from_season ("2024-25") rfl, by decide⟩

/-- Claim C9, counterexample to the claim as stated: the CLI argument
`'2024-25\n'` is malformed — it does not match `four digits, hyphen, two
digits` — yet the process does NOT exit with a usage error: validation
accepts it (Python's `$` matches before the trailing newline) and the
run proceeds to the roster network call. -/
theorem invalid_season_network_counterexample :
    specSeasonPattern ("2024-25\n") = false ∧
    (main (some ("2024-25\n")) (Except.ok []) emptyApi).1 = Outcome.noData ∧
    Effect.rosterCall ∈ (main (some ("2024-25\n")) (Except.ok []) emptyApi).2 := by
  refine ⟨rfl, rfl, ?_⟩
  decide

/-- Claim C9 (amended): a season argument the VALIDATOR rejects —
malformed beyond the trailing-newline relaxation, or with a
non-consecutive year pair — makes the process exit with a usage error
before anything else happens: the effect trace is empty, so no network
request and no filesystem write occur.  (The malformed argument
`'2024-25\n'` is the exception: the validator accepts it and the run
proceeds, see the counterexample.) -/
theorem invalid_season_usage_error (s msg : String)
    (roster : Except String (List Player)) (api : ShotApi)
    (hbad : validate_season_format s = Except.error msg) :
    (main (some s) roster api).1 = Outcome.usageError msg ∧
    (main (some s) roster api).2 = [] := by
  unfold main parse_arguments
  simp only [Option.getD]
  rw [hbad]
  exact ⟨rfl, rfl⟩

/-- Claim C9, witness: the non-consecutive season `'2024-26'` supplied on
the CLI yields a usage error and an empty effect trace. -/
theorem invalid_season_usage_error_witness :
    (main (some ("2024-26")) (Except.ok [playerOne]) sampleApi).1
      = Outcome.usageError ("Invalid season: years must be consecutive") ∧
    (main (some ("2024-26")) (Except.ok [playerOne]) sampleApi).2 = [] :=
  invalid_season_usage_error ("2024-26")
    ("Invalid season: years must be consecutive")
    (Except.ok [playerOne]) sampleApi rfl

end FetchData
